import Mathlib

/-!
Verification of the LocalAI chat backend against its specification.

The Python sources are shallowly embedded: pure string manipulation is
translated to Lean functions over `String`/`List Char`; wall-clock times
are passed explicitly as rationals; network calls (search providers, the
model HTTP stream, liveness probes) are oracles passed as parameters whose
outcomes (`Except`) model success or a raised exception.  Python `None`
versus a string value is modelled by `Option String`, and Python string
truthiness (`if s:`) by discriminating the empty string.  Character
classification (`str.isalnum`, `str.lower`, `str.strip`) is modelled on
the ASCII range via Lean's `Char` predicates.
-/

namespace LocalAI

/-- Python `str.strip()` on the ASCII whitespace range. -/
def pyStrip (s : String) : String :=
  String.mk (((s.toList.dropWhile Char.isWhitespace).reverse.dropWhile
    Char.isWhitespace).reverse)

/-- Python `str.lower()` (ASCII model). -/
def pyLower (s : String) : String :=
  String.mk (s.toList.map Char.toLower)

/-- Python `str.find(sub)`: index of the first occurrence of `needle`
in `hay`, or `none` for Python's `-1`. -/
def findSub (hay needle : List Char) : Option Nat :=
  if needle.isPrefixOf hay then some 0
  else
    match hay with
    | [] => none
    | _ :: t => (findSub t needle).map (· + 1)

/-- Python `needle in hay` substring test. -/
def strContains (needle hay : String) : Bool :=
  (findSub hay.toList needle.toList).isSome

/-- Python truthiness of an optional string: `None` and `""` are falsy. -/
def pyTruthyStr : Option String → Bool
  | none => false
  | some s => s ≠ ""

/-- Embedding of `logic.split_thinking`: locate `<think>` and the first `</think>`;
if both are found with the closer after the opener, return the stripped
enclosed text, the stripped concatenation of the text before the opener
and after the closer, and `True`; otherwise no thinking segment and the
whole stripped text is the answer. -/
def splitThinking (text : String) : Option String × String × Bool :=
  let cs := text.toList
  match findSub cs ("<think>".toList), findSub cs ("</think>".toList) with
  | some s, some e =>
    if s < e then
      (some (pyStrip (String.mk ((cs.drop (s + 7)).take (e - (s + 7))))),
       pyStrip (String.mk (cs.take s ++ cs.drop (e + 8))),
       true)
    else (none, pyStrip text, false)
  | _, _ => (none, pyStrip text, false)

/-- Python regex word character `\w` (ASCII model). -/
def isWordChar (c : Char) : Bool := c.isAlphanum || c = '_'

/-- Match of the regex `\b202[3-9]\b` anywhere in the text, scanning with
the character preceding the current position (`none` at the start). -/
def hasYearToken : Option Char → List Char → Bool
  | prev, a :: b :: c :: d :: rest =>
    if a = '2' && b = '0' && c = '2' && ('3' ≤ d && d ≤ '9')
        && (match prev with | none => true | some p => !isWordChar p)
        && (match rest with | [] => true | r :: _ => !isWordChar r) then
      true
    else
      hasYearToken (some a) (b :: c :: d :: rest)
  | _, _ => false

/-- The recency keyword list of `logic._needs_search`. -/
def freshKeywords : List String :=
  ["today", "latest", "current", "breaking", "news", "price", "prices",
   "stock", "stocks", "weather", "forecast", "score", "scores",
   "schedule", "release date", "who is", "ceo"]

/-- Embedding of `logic._needs_search`: lowercase the prompt, then test recency
keywords, a 2023-2029 year literal with word boundaries, and http(s)
URLs. -/
def needsSearch (prompt : String) : Bool :=
  let text := pyLower prompt
  (freshKeywords.any fun k => strContains k text)
  || hasYearToken none text.toList
  || strContains "http://" text
  || strContains "https://" text

/-- A search result dict `{"title", "url", "snippet"}`. -/
structure SResult where
  title : String
  url : String
  snippet : String
deriving Repr, DecidableEq

/-- The observable outcome of `logic.gather_context`: its four returned
values, the evidence recorded via `set_evidence`, and the argument lists
`(max_results, timeout)` of the calls made to the primary
(`bravery_search`) and fallback (`perform_search`) providers. -/
structure GatherResult where
  searchContext : String
  webContext : String
  timedOut : Bool
  searchError : Option String
  evidence : String
  braveryCalls : List (Nat × Int)
  fallbackCalls : List (Nat × Int)
deriving Repr, DecidableEq

/-- The result-rendering loop of `logic.gather_context` (lines 236-243):
one line `SEARCH RESULT {i+1}: {display}` per result, newline-joined,
where `display` is the stripped snippet (or stripped title when the
snippet strips to empty), with ` ({url})` appended only when the stripped
url is nonempty. -/
def renderResults (rs : List SResult) : String :=
  String.intercalate "\n" (rs.enum.map fun p =>
    let title := pyStrip p.2.title
    let url := pyStrip p.2.url
    let snippet := if pyStrip p.2.snippet ≠ "" then pyStrip p.2.snippet else title
    let display := if url = "" then snippet else snippet ++ " (" ++ url ++ ")"
    "SEARCH RESULT " ++ toString (p.1 + 1) ++ ": " ++ display)

/-- The intermediate values of the `if should_search:` block of
`logic.gather_context` (lines 207-232). -/
structure SearchPhase where
  results : List SResult
  error : Option String
  timedOut : Bool
  braveryCalls : List (Nat × Int)
  fallbackCalls : List (Nat × Int)
deriving Repr, DecidableEq

/-- The search-attempt block of `logic.gather_context`: skipped when the
gate is off; a non-positive remaining budget times out without calling a
provider; otherwise `bravery_search` runs with timeout
`min(30, int(remaining))` and, on a truthy error with no results,
`perform_search` is the fallback (results adopted and the error cleared,
or the errors combined). -/
def searchPhase (useSearch : Bool) (prompt : String) (now deadline : ℚ)
    (bravery fallback : Nat → Int → List SResult × Option String) :
    SearchPhase :=
  if useSearch && needsSearch prompt then
    let remaining := deadline - now
    if remaining ≤ 0 then
      ⟨[], some "Search time budget exceeded before starting.", true, [], []⟩
    else
      let tmo : Int := min 30 (Int.floor remaining)
      match bravery 10 tmo with
      | (res, err) =>
        if pyTruthyStr err && res.isEmpty then
          match fallback 10 tmo with
          | (fres, ferr) =>
            if fres ≠ [] then ⟨fres, none, false, [(10, tmo)], [(10, tmo)]⟩
            else if pyTruthyStr ferr then
              ⟨res, some ((err.getD "") ++ "; " ++ (ferr.getD "")), false,
               [(10, tmo)], [(10, tmo)]⟩
            else ⟨res, err, false, [(10, tmo)], [(10, tmo)]⟩
        else ⟨res, err, false, [(10, tmo)], []⟩
  else ⟨[], none, false, [], []⟩

/-- Embedding of `logic.gather_context`.  `useSearch` is `state.get("use_search",
False)`; `now` models `time.monotonic()` at entry; the providers are
oracles with the signature `(max_results, timeout) -> (results, error)`
for the fixed query `prompt`.  The rendered block is both the returned
search context and the recorded evidence (the latter stripped by
`evidence_text = search_context.strip()`). -/
def gatherContext (useSearch : Bool) (prompt : String) (now deadline : ℚ)
    (bravery fallback : Nat → Int → List SResult × Option String) :
    GatherResult :=
  let p := searchPhase useSearch prompt now deadline bravery fallback
  { searchContext := renderResults p.results
    webContext := ""
    timedOut := p.timedOut
    searchError := p.error
    evidence := pyStrip (renderResults p.results)
    braveryCalls := p.braveryCalls
    fallbackCalls := p.fallbackCalls }

/-! ### Search providers (`WebAccess.bravery_search`, `Search.perform_search`)

The HTTP request plus JSON parsing of each provider is modelled as an
oracle.  Each embedded function returns in `Except String`: a `.error`
would model an uncaught Python exception escaping the function. -/

/-- One entry of Brave's `data["web"]["results"]`. -/
structure BraveItem where
  title : String
  url : String
  description : String
deriving Repr, DecidableEq

/-- Embedding of `WebAccess.bravery_search`.  `braveKey` is `BRAVE_API_KEY`
(file-or-env, `none`/empty falsy); `fetch` is the outcome of the HTTP
call and JSON decode (`.error e` models a raised exception rendered by
`str(e)`). -/
def braverySearch (braveKey : Option String)
    (fetch : Except String (List BraveItem)) (query : String)
    (maxResults : Nat) : Except String (List SResult × Option String) :=
  if query = "" then .ok ([], some "No query provided")
  else if !pyTruthyStr braveKey then .ok ([], some "BRAVE_API_KEY is not set")
  else
    match fetch with
    | .error e => .ok ([], some e)
    | .ok items =>
      let results := (items.map fun it =>
        SResult.mk (pyStrip it.title) (pyStrip it.url)
          (pyStrip it.description)).take maxResults
      if results = [] then .ok ([], some "Brave Search returned no results")
      else .ok (results, none)

/-- The observable outcome of `Search.perform_search`: its returned
`(results, error)` pair plus which providers were attempted. -/
structure PerformOutcome where
  results : List SResult
  error : Option String
  googleTried : Bool
  ddgTried : Bool
deriving Repr, DecidableEq

/-- Embedding of `Search.perform_search`.  `cseId`/`gApiKey` are the `GOOGLE_CSE_ID`
and `GOOGLE_API_KEY` environment variables; `googleSearch` and
`ddgSearch` are oracles for `_google_search` / `_duckduckgo_search`
(`.error e` models a raised exception).  A `.error` of the whole
function would model an uncaught exception. -/
def performSearch (cseId gApiKey : Option String)
    (googleSearch ddgSearch : Except String (List SResult))
    (query : String) (maxResults : Nat) : Except String PerformOutcome :=
  if query = "" then .ok ⟨[], none, false, false⟩
  else
    let useGoogle := pyTruthyStr cseId && pyTruthyStr gApiKey
    let (googleDone, errors) :
        Option PerformOutcome × List String :=
      if useGoogle then
        match googleSearch with
        | .ok googleResults =>
          if googleResults ≠ [] then
            (some ⟨googleResults.take maxResults, none, true, false⟩, [])
          else (none, ["Google search returned no results."])
        | .error e => (none, ["Google search failed: " ++ e])
      else (none, [])
    match googleDone with
    | some out => .ok out
    | none =>
      match ddgSearch with
      | .ok ddgResults =>
        if ddgResults ≠ [] then
          .ok ⟨ddgResults.take maxResults, none, useGoogle, true⟩
        else
          .ok ⟨ddgResults,
            if errors ≠ [] then some (String.intercalate "; " errors) else none,
            useGoogle, true⟩
      | .error e =>
        .ok ⟨[], some (String.intercalate "; " (errors ++ [e])), useGoogle, true⟩

/-! ### Endpoint resolution (`Model.py`) -/

/-- Embedding of `Model.LOCAL_MODEL`. -/
def LOCAL_MODEL : String := "deepseek-r1:14b"

/-- Embedding of `Model.CLOUD_MODEL`. -/
def CLOUD_MODEL : String := "deepseek-v3.2:cloud"

/-- Embedding of `Model.SEARCH_TIME_BUDGET` in seconds. -/
def SEARCH_TIME_BUDGET : Nat := 180

/-- Embedding of `Model._normalize_base`: strip, ensure an http(s) scheme, drop
trailing slashes. -/
def normalizeBase (host : String) : String :=
  let host := pyStrip host
  let host :=
    if host.startsWith "http://" || host.startsWith "https://" then host
    else "http://" ++ host
  String.mk (host.toList.reverse.dropWhile (· = '/')).reverse

/-- Embedding of `Model._generate_url`. -/
def generateUrl (base : String) : String :=
  let base := normalizeBase base
  if base.endsWith "/api/generate" then base
  else if base.endsWith "/api" then base ++ "/generate"
  else base ++ "/api/generate"

/-- Embedding of `Model._auth_headers`: cloud-shaped bases (or `require_key=True`)
demand the bearer key; a missing key raises (`.error`); otherwise the
header list (empty for local). -/
def authHeaders (apiKey base : String) (requireKey : Bool) :
    Except String (List (String × String)) :=
  let needsKey := requireKey || strContains "ollama.com" base
    || base.startsWith "https://api.ollama."
  if needsKey then
    if apiKey = "" then
      .error "OLLAMA_API_KEY is required for the configured Ollama cloud endpoint."
    else .ok [("Authorization", "Bearer " ++ apiKey)]
  else .ok []

/-- Embedding of `Model._is_local_base`. -/
def isLocalBase (base : String) : Bool :=
  let host := ((base.replace "http://" "").replace "https://" "").takeWhile (· ≠ '/')
  host.startsWith "localhost" || host.startsWith "127.0.0.1"

/-- The explicit `OLLAMA_HOST` branch of `get_ollama_endpoint`. -/
def resolveExplicitHost (h : String) (forced : Option String) (apiKey : String) :
    Except String (String × List (String × String) × String) :=
  let base := normalizeBase h
  let isCloud := strContains "ollama.com" base && !isLocalBase base
  let model := forced.getD (if isCloud then CLOUD_MODEL else LOCAL_MODEL)
  match authHeaders apiKey base isCloud with
  | .error e => .error e
  | .ok hs => .ok (generateUrl base, hs, model)

/-- The forced-model branch of `get_ollama_endpoint`: normalize the
`cloud`/`local` aliases, else treat the tag as custom and prefer a
reachable local daemon over the authenticated cloud base. -/
def resolveForced (fm : String) (localBase cloudBase apiKey : String)
    (localUp : Nat → Bool) :
    Except String (String × List (String × String) × String) :=
  if pyLower fm = "cloud" || fm = CLOUD_MODEL then
    match authHeaders apiKey (normalizeBase cloudBase) true with
    | .error e => .error e
    | .ok hs => .ok (generateUrl (normalizeBase cloudBase), hs, CLOUD_MODEL)
  else if pyLower fm = "local" || fm = LOCAL_MODEL then
    .ok (generateUrl (normalizeBase localBase), [], LOCAL_MODEL)
  else if localUp 0 then
    .ok (generateUrl (normalizeBase localBase), [], fm)
  else
    match authHeaders apiKey (normalizeBase cloudBase) true with
    | .error e => .error e
    | .ok hs => .ok (generateUrl (normalizeBase cloudBase), hs, fm)

/-- The default branch of `get_ollama_endpoint`: entry probe of the
local daemon, 1-second re-probes through the startup grace period, then
the cloud fallback requiring the bearer key, else a raised error. -/
def resolveDefault (localBase cloudBase apiKey : String)
    (localUp : Nat → Bool) (graceTicks : Nat) (cloudUp : Bool) :
    Except String (String × List (String × String) × String) :=
  if localUp 0 then
    .ok (generateUrl (normalizeBase localBase), [], LOCAL_MODEL)
  else if ((List.range graceTicks).find? fun k => localUp (k + 1)).isSome then
    .ok (generateUrl (normalizeBase localBase), [], LOCAL_MODEL)
  else if cloudUp then
    match authHeaders apiKey (normalizeBase cloudBase) true with
    | .error e => .error e
    | .ok hs => .ok (generateUrl (normalizeBase cloudBase), hs, CLOUD_MODEL)
  else .error "No reachable Ollama endpoint (local or cloud)."

/-- Embedding of `Model.get_ollama_endpoint`.  `host` is the `OLLAMA_HOST` override,
`forced` the debug-forced model; `localUp k` is the outcome of the
k-th liveness probe of the local daemon (probe 0 at entry, probes
1..graceTicks during the 1-second-interval startup-grace loop), and
`cloudUp` the cloud liveness probe.  Raised `RuntimeError`s are
`.error`. -/
def getOllamaEndpoint (host forced : Option String)
    (localBase cloudBase apiKey : String) (localUp : Nat → Bool)
    (graceTicks : Nat) (cloudUp : Bool) :
    Except String (String × List (String × String) × String) :=
  match host with
  | some h => resolveExplicitHost h forced apiKey
  | none =>
    match forced with
    | some fm => resolveForced fm localBase cloudBase apiKey localUp
    | none => resolveDefault localBase cloudBase apiKey localUp graceTicks cloudUp

/-! ### Session store (`sid_create.py`, `Config.py`)

Session states are JSON objects, modelled as association lists from keys
to `Json` values.  `save_session` serializes with `json.dumps` and
`load_session` parses with `json.loads`; this inverse pair of the Python
standard library is modelled by the disk holding the parsed `Json` value
of each file, keyed by filename. -/

/-- A JSON value (numbers restricted to integers; nothing below depends
on numeric contents). -/
inductive Json where
  | null
  | bool (b : Bool)
  | num (n : Int)
  | str (s : String)
  | arr (xs : List Json)
  | obj (fields : List (String × Json))
deriving Repr

/-- A session state: the key-value pairs of the Python `dict`. -/
abbrev SState := List (String × Json)

/-- Python dict assignment `m[k] = v` on an association list: replace
in place if present, else append. -/
def updateAssoc {α : Type} (m : List (String × α)) (k : String) (v : α) :
    List (String × α) :=
  if (m.lookup k).isSome then
    m.map fun p => if p.1 = k then (k, v) else p
  else m ++ [(k, v)]

/-- Python `dict.setdefault(k, v)`. -/
def setdefaultJ (m : SState) (k : String) (v : Json) : SState :=
  if (m.lookup k).isSome then m else m ++ [(k, v)]

/-- Embedding of `Config.apply_defaults`. -/
def applyDefaultsJ (m : SState) : SState :=
  setdefaultJ (setdefaultJ (setdefaultJ (setdefaultJ (setdefaultJ
    (setdefaultJ m "history" (.arr []))
    "use_search" (.bool true))
    "use_url_fetch" (.bool false))
    "auto_fetch_top_result" (.bool true))
    "file_context" (.str ""))
    "user_location" .null

/-- Embedding of `sid_create._sanitize_session_id` (ASCII model of `str.isalnum`). -/
def sanitizeSessionId (sid : String) : String :=
  let safe := String.mk (sid.toList.filter fun c =>
    c.isAlphanum || c = '-' || c = '_')
  if safe = "" then "default" else safe

/-- Embedding of `sid_create._session_path`, as the filename inside the sessions
directory. -/
def sessionFileName (sid : String) : String :=
  sanitizeSessionId sid ++ ".json"

/-- The process state: the in-memory `STATE` cache and the sessions
directory (filename to parsed JSON contents). -/
structure Store where
  mem : List (String × SState)
  disk : List (String × Json)

/-- Embedding of `sid_create.load_session`: the parsed file contents if present and a
dict, else a fresh `{}`. -/
def loadSession (sid : String) (st : Store) : SState :=
  match st.disk.lookup (sessionFileName sid) with
  | some (.obj fields) => fields
  | _ => []

/-- Embedding of `sid_create.save_session` (atomic replace of the session file). -/
def saveSession (sid : String) (state : SState) (st : Store) : Store :=
  { st with disk := updateAssoc st.disk (sessionFileName sid) (.obj state) }

/-- Embedding of `sid_create.get_state`: reject an empty id, load into the cache on a
miss, apply defaults (mutating the cached state), persist, and return
the state together with the updated process state. -/
def getState (sid : String) (st : Store) :
    Except String (SState × Store) :=
  if sid = "" then .error "session_id is required"
  else
    let loaded := match st.mem.lookup sid with
      | some s => s
      | none => loadSession sid st
    let state := applyDefaultsJ loaded
    let st1 : Store := { st with mem := updateAssoc st.mem sid state }
    .ok (state, saveSession sid state st1)

/-! ### Request handlers (`routes.py`)

The session state as seen by the handlers after `apply_defaults`, as a
typed record.  `history` entries are `(role, text)` pairs.  Job records
mirror `state["jobs"][request_id]`; the `thinking` field holds `none`
both for Python's initial `""` and for `None`. -/

/-- A geolocation value `{lat, lon, accuracy?, timestamp?}`. -/
structure Loc where
  lat : ℚ
  lon : ℚ
  accuracy : Option ℚ
  timestamp : Option String
deriving Repr, DecidableEq

/-- The client-supplied `location` payload field: a valid lat/lon dict,
`None` (keep the stored value), or anything else (clear it). -/
inductive LocUpdate where
  | set (l : Loc)
  | keep
  | clear
deriving Repr, DecidableEq

/-- One record of `state["jobs"]`. -/
structure Job where
  jid : String
  prompt : String
  status : String
  startedAt : ℚ
  updatedAt : ℚ
  answer : String
  raw : String
  thinking : Option String
  error : String
deriving Repr, DecidableEq

/-- The typed session state used by the `/api/send*` handlers. -/
structure Session where
  history : List (String × String)
  useSearch : Bool
  autoFetchTopResult : Bool
  fileContext : String
  userLocation : Option Loc
  pendingRequests : List (String × (String × ℚ))
  jobs : List (String × Job)
deriving Repr, DecidableEq

/-- Update the job record at `rid` (present after the request setup). -/
def jobUpdate (jobs : List (String × Job)) (rid : String) (f : Job → Job) :
    List (String × Job) :=
  jobs.map fun p => if p.1 = rid then (p.1, f p.2) else p

/-- Python `dict.pop(k, None)`. -/
def removeKey {α : Type} (m : List (String × α)) (k : String) :
    List (String × α) :=
  m.filter fun p => p.1 ≠ k

/-- The session mutations of the `/api/send` handler before the worker
starts (routes.py lines 265-319): flag updates, location handling, the
`("user", prompt)` history append, and the pending/job bookkeeping.
`/api/send_async` (lines 520-563) performs the same mutations. -/
def sendSetup (s : Session) (prompt : String) (useSearch locationFailed : Bool)
    (location : LocUpdate) (rid : String) (t : ℚ) : Session :=
  let useSearch := if locationFailed then false else useSearch
  let s := { s with useSearch := useSearch, autoFetchTopResult := useSearch }
  let s := match location with
    | .set l => { s with userLocation := some l }
    | .keep => s
    | .clear => { s with userLocation := none }
  let s := { s with history := s.history ++ [("user", prompt)] }
  { s with
    pendingRequests := updateAssoc s.pendingRequests rid (prompt, t)
    jobs := updateAssoc s.jobs rid
      { jid := rid, prompt := prompt, status := "running", startedAt := t,
        updatedAt := t, answer := "", raw := "", thinking := none, error := "" } }

/-- The session mutations of `routes.model_worker` (the `except` branch
followed by the `finally` block): `chunks` are the streamed fragments
(empty ones were skipped when accumulating), `exn` a raised exception.
A nonempty accumulated text is appended to history and the job marked
done; an empty one marks the job as an `empty response` error. -/
def workerFinalize (s : Session) (rid : String) (chunks : List String)
    (exn : Option String) (t : ℚ) : Session :=
  let s := match exn with
    | some e =>
      { s with jobs := jobUpdate s.jobs rid fun j =>
          { j with status := "error", error := e, updatedAt := t } }
    | none => s
  let acc := String.join (chunks.filter (· ≠ ""))
  if acc ≠ "" then
    let (thinking, answer, has) := splitThinking acc
    { s with
      history := s.history ++ [("assistant", acc)]
      pendingRequests := removeKey s.pendingRequests rid
      jobs := jobUpdate s.jobs rid fun j =>
        { j with status := "done", raw := acc, thinking := thinking,
                 answer := if has then answer else acc, updatedAt := t } }
  else
    { s with
      pendingRequests := removeKey s.pendingRequests rid
      jobs := jobUpdate s.jobs rid fun j =>
        { j with status := "error", error := "empty response", updatedAt := t } }

/-- The body of `routes.model_worker_async` after the prompt is built:
on success the accumulated text is appended to history (even when
empty) and the job marked done; a raised exception marks the job as an
error without touching history. -/
def workerAsyncRun (s : Session) (rid : String)
    (outcome : Except String (List String)) (t : ℚ) : Session :=
  match outcome with
  | .ok chunks =>
    let acc := String.join (chunks.filter (· ≠ ""))
    let (thinking, answer, has) := splitThinking acc
    { s with
      history := s.history ++ [("assistant", acc)]
      pendingRequests := removeKey s.pendingRequests rid
      jobs := jobUpdate s.jobs rid fun j =>
        { j with status := "done", raw := acc, thinking := thinking,
                 answer := if has then answer else acc, updatedAt := t } }
  | .error e =>
    { s with
      pendingRequests := removeKey s.pendingRequests rid
      jobs := jobUpdate s.jobs rid fun j =>
        { j with status := "error", error := e, updatedAt := t } }

/-- The `state` mutations of `routes.upload_files`: each file appends a
`FILE {name}:` block to `file_context` (extracted text, or a stored-only
marker).  History is untouched. -/
def uploadOp : Session → List (String × String) → Session
  | s, [] => s
  | s, p :: rest =>
    uploadOp
      { s with fileContext := s.fileContext ++ "FILE " ++ p.1 ++ ":\n" ++
          (if p.2 ≠ "" then p.2 else "[stored, no text extracted]") ++ "\n\n" }
      rest

/-! ### The `/api/send` event stream (`routes.py` lines 321-503)

The worker communicates with the client-facing generator through an
asyncio queue; the queue items and the emitted events are modelled as
inductives.  The worker's `finally` block always enqueues the `end`
sentinel. -/

/-- An item placed on the hand-off queue. -/
inductive QItem where
  | status (text : String)
  | token (text : String)
  | error (text : String)
  | stop
deriving Repr, DecidableEq

/-- A newline-delimited JSON event yielded to the client. -/
inductive SEvent where
  | job (jobId : String)
  | notice (text : String)
  | token (text : String)
  | error (text : String)
  | final (raw : String) (answer : String) (thinking : Option String)
deriving Repr, DecidableEq

/-- The queue items enqueued by `routes.model_worker`: a status once
generation starts (absent when endpoint resolution raised first), one
token per nonempty fragment, the error converted from any caught
exception, then the finalizing status and the `end` sentinel from the
`finally` block. -/
def workerQueue (chunks : List String) (exn : Option String)
    (genStarted : Bool) : List QItem :=
  (if genStarted then [QItem.status "Generating response…"] else [])
  ++ (chunks.filter (· ≠ "")).map QItem.token
  ++ (match exn with | some e => [QItem.error e] | none => [])
  ++ [QItem.status "Finalizing output…", QItem.stop]

/-- The worker's shared `result` dict after the `finally` block:
`(acc, answer, thinking)`, left at its defaults when the accumulated
text is empty. -/
def workerResult (chunks : List String) : String × String × Option String :=
  let acc := String.join (chunks.filter (· ≠ ""))
  if acc ≠ "" then
    let (thinking, answer, has) := splitThinking acc
    (acc, if has then answer else acc, thinking)
  else ("", "", none)

/-- The consumer loop of `routes.event_stream`: statuses are dropped (no
matching branch), tokens forwarded, an error event ends the stream, and
the `end` sentinel emits the `final` event assembled from the shared
result (falling back to the joined fragments). -/
def consumeQueue (wr : String × String × Option String) (joined : String) :
    List QItem → List SEvent
  | [] => []
  | QItem.status _ :: rest => consumeQueue wr joined rest
  | QItem.token t :: rest => SEvent.token t :: consumeQueue wr joined rest
  | QItem.error e :: _ => [SEvent.error e]
  | QItem.stop :: _ =>
    let acc := if wr.1 ≠ "" then wr.1 else joined
    [SEvent.final acc (if wr.2.1 ≠ "" then wr.2.1 else acc) wr.2.2]

/-- Everything the client receives from one `/api/send` call: the job id
event, the advisory notices, then the consumed queue (the two statuses
pushed before the worker thread starts, followed by the worker's
items). -/
def sendEventStream (rid : String) (searchError : Option String)
    (timedOut useSearch genStarted : Bool) (chunks : List String)
    (exn : Option String) : List SEvent :=
  [SEvent.job rid]
  ++ (if pyTruthyStr searchError then
        [SEvent.notice ("Search unavailable: " ++ searchError.getD "")] else [])
  ++ (if timedOut then
        [SEvent.notice ("Search/fetch capped at " ++
          toString (SEARCH_TIME_BUDGET / 60) ++ " minute(s).")] else [])
  ++ consumeQueue (workerResult chunks) (String.join (chunks.filter (· ≠ "")))
      ([QItem.status "Preparing request…",
        QItem.status (if useSearch then "Searching for data…"
          else "Skipping search; compiling context…")]
       ++ workerQueue chunks exn genStarted)

/-- An event that ends the stream: `error` or `final`. -/
def isTerminal : SEvent → Bool
  | SEvent.error _ => true
  | SEvent.final _ _ _ => true
  | _ => false

/-- The terminal event the stream must end with: the error converted
from a worker exception, else the `final` event carrying the complete
raw text, answer and thinking. -/
def terminalOf (chunks : List String) (exn : Option String) : SEvent :=
  match exn with
  | some e => SEvent.error e
  | none =>
    let wr := workerResult chunks
    let joined := String.join (chunks.filter (· ≠ ""))
    let acc := if wr.1 ≠ "" then wr.1 else joined
    SEvent.final acc (if wr.2.1 ≠ "" then wr.2.1 else acc) wr.2.2

/-! ### Shared helper lemmas -/

theorem string_toList_append (a b : String) :
    (a ++ b).toList = a.toList ++ b.toList := by
  cases a; cases b; rfl

theorem string_mk_toList (s : String) : String.mk s.toList = s := by
  cases s; rfl

theorem string_length_eq (s : String) : s.toList.length = s.length := rfl

theorem string_mk_eq_empty_iff (l : List Char) : String.mk l = "" ↔ l = [] := by
  constructor
  · exact fun h => congrArg String.data h
  · intro h; rw [h]

theorem lookup_append {α : Type} (m l : List (String × α)) (k : String) :
    (m ++ l).lookup k = ((m.lookup k).or (l.lookup k)) := by
  induction m with
  | nil => simp [List.lookup]
  | cons a t ih =>
    obtain ⟨a1, a2⟩ := a
    by_cases h : k = a1
    · simp [List.lookup, h]
    · have hb : (k == a1) = false := beq_eq_false_iff_ne.mpr h
      simp [List.lookup, hb, ih]

theorem lookup_map_overwrite {α : Type} (m : List (String × α))
    (k : String) (v : α) (h : (m.lookup k).isSome) :
    (m.map fun p => if p.1 = k then (k, v) else p).lookup k = some v := by
  induction m with
  | nil => simp [List.lookup] at h
  | cons a t ih =>
    obtain ⟨a1, a2⟩ := a
    rw [List.map_cons]
    by_cases hk : a1 = k
    · subst hk
      rw [if_pos rfl]
      simp [List.lookup]
    · have hb : (k == a1) = false := beq_eq_false_iff_ne.mpr (fun e => hk e.symm)
      simp only [List.lookup, hb] at h
      rw [if_neg hk]
      simp [List.lookup, hb, ih h]

theorem lookup_updateAssoc_self {α : Type} (m : List (String × α))
    (k : String) (v : α) : (updateAssoc m k v).lookup k = some v := by
  unfold updateAssoc
  by_cases h : (m.lookup k).isSome
  · rw [if_pos h]
    exact lookup_map_overwrite m k v h
  · rw [if_neg h]
    rw [lookup_append]
    rw [Option.not_isSome_iff_eq_none] at h
    simp [h, List.lookup]

theorem setdefaultJ_noop (m : SState) (k : String) (v : Json)
    (h : (m.lookup k).isSome) : setdefaultJ m k v = m := if_pos h

theorem lookup_setdefaultJ_self (m : SState) (k : String) (v : Json) :
    (setdefaultJ m k v).lookup k = some ((m.lookup k).getD v) := by
  unfold setdefaultJ
  by_cases h : (m.lookup k).isSome
  · rw [if_pos h]
    obtain ⟨x, hx⟩ := Option.isSome_iff_exists.mp h
    simp [hx]
  · rw [if_neg h]
    rw [Option.not_isSome_iff_eq_none] at h
    rw [lookup_append, h]
    simp [List.lookup]

theorem lookup_setdefaultJ_ne (m : SState) (k k' : String) (v : Json)
    (h : k' ≠ k) : (setdefaultJ m k v).lookup k' = m.lookup k' := by
  unfold setdefaultJ
  by_cases hs : (m.lookup k).isSome
  · rw [if_pos hs]
  · rw [if_neg hs, lookup_append]
    have hb : (k' == k) = false := beq_eq_false_iff_ne.mpr h
    simp [List.lookup, hb]

/-! ### C6: split_thinking -/

/-- C6 (amended): `split_thinking` returns, when the first `<think>` and
the first `</think>` occur properly ordered (here: the text decomposes
around those first occurrences), the enclosed text and the concatenation
of the text before the opener with the text after the closer — each
stripped of surrounding whitespace — together with `True`; otherwise no
thinking segment and the whole text, stripped, is the answer with
`False`.  The claim's concrete examples hold as stated. -/
theorem split_thinking_spec :
    (∀ pre inner post : String,
      findSub (pre ++ "<think>" ++ inner ++ "</think>" ++ post).toList
          "<think>".toList = some pre.length →
      findSub (pre ++ "<think>" ++ inner ++ "</think>" ++ post).toList
          "</think>".toList = some (pre.length + 7 + inner.length) →
      splitThinking (pre ++ "<think>" ++ inner ++ "</think>" ++ post)
        = (some (pyStrip inner), pyStrip (pre ++ post), true))
    ∧ (∀ text : String,
        (findSub text.toList "<think>".toList = none
         ∨ findSub text.toList "</think>".toList = none
         ∨ (∀ s e : Nat, findSub text.toList "<think>".toList = some s →
             findSub text.toList "</think>".toList = some e → e ≤ s)) →
        splitThinking text = (none, pyStrip text, false))
    ∧ splitThinking "<think>reason</think>answer" = (some "reason", "answer", true)
    ∧ splitThinking "plain" = (none, "plain", false) := by
  refine ⟨?_, ?_, by decide, by decide⟩
  · intro pre inner post ho hc
    have hcs : (pre ++ "<think>" ++ inner ++ "</think>" ++ post).toList
        = pre.toList ++ "<think>".toList ++ inner.toList
          ++ "</think>".toList ++ post.toList := by
      simp [string_toList_append]
    simp only [splitThinking, ho, hc]
    rw [if_pos (by omega)]
    have hdrop1 : ((pre ++ "<think>" ++ inner ++ "</think>" ++ post).toList).drop
        (pre.length + 7)
        = inner.toList ++ "</think>".toList ++ post.toList := by
      rw [hcs]
      have hre : pre.toList ++ "<think>".toList ++ inner.toList
          ++ "</think>".toList ++ post.toList
          = (pre.toList ++ "<think>".toList)
            ++ (inner.toList ++ "</think>".toList ++ post.toList) := by
        simp [List.append_assoc]
      rw [hre]
      rw [List.drop_left' (by simp [string_length_eq])]
    have htake1 : (inner.toList ++ "</think>".toList ++ post.toList).take
        (pre.length + 7 + inner.length - (pre.length + 7)) = inner.toList := by
      have harith : pre.length + 7 + inner.length - (pre.length + 7)
          = inner.length := by omega
      rw [harith]
      have hre : inner.toList ++ "</think>".toList ++ post.toList
          = inner.toList ++ ("</think>".toList ++ post.toList) := by
        simp [List.append_assoc]
      rw [hre]
      rw [List.take_left' (string_length_eq inner)]
    have htake2 : ((pre ++ "<think>" ++ inner ++ "</think>" ++ post).toList).take
        pre.length = pre.toList := by
      rw [hcs]
      have hre : pre.toList ++ "<think>".toList ++ inner.toList
          ++ "</think>".toList ++ post.toList
          = pre.toList ++ ("<think>".toList ++ inner.toList
            ++ "</think>".toList ++ post.toList) := by
        simp [List.append_assoc]
      rw [hre]
      rw [List.take_left' (string_length_eq pre)]
    have hdrop2 : ((pre ++ "<think>" ++ inner ++ "</think>" ++ post).toList).drop
        (pre.length + 7 + inner.length + 8) = post.toList := by
      rw [hcs]
      have hre : pre.toList ++ "<think>".toList ++ inner.toList
          ++ "</think>".toList ++ post.toList
          = (pre.toList ++ "<think>".toList ++ inner.toList
            ++ "</think>".toList) ++ post.toList := by
        simp [List.append_assoc]
      rw [hre]
      rw [List.drop_left' (by simp [string_length_eq]; omega)]
    rw [hdrop1, htake1, htake2, hdrop2]
    rw [string_mk_toList]
    have : pre.toList ++ post.toList = (pre ++ post).toList :=
      (string_toList_append pre post).symm
    rw [this, string_mk_toList]
  · intro text h
    rcases ho : findSub text.toList "<think>".toList with _ | s
    · rcases hc : findSub text.toList "</think>".toList with _ | e <;>
        simp only [splitThinking, ho, hc]
    · rcases hc : findSub text.toList "</think>".toList with _ | e
      · simp only [splitThinking, ho, hc]
      · have hle : e ≤ s := by
          rcases h with h | h | h
          · rw [h] at ho; exact Option.noConfusion ho
          · rw [h] at hc; exact Option.noConfusion hc
          · exact h s e ho hc
        simp only [splitThinking, ho, hc]
        rw [if_neg (Nat.not_lt.mpr hle)]

/-- Witness for C6: a concrete decomposition with surrounding
whitespace, evaluated through the amended theorem. -/
theorem split_thinking_spec_witness :
    splitThinking ("a " ++ "<think>" ++ " r " ++ "</think>" ++ " b")
      = (some (pyStrip " r "), pyStrip ("a " ++ " b"), true) :=
  split_thinking_spec.1 "a " " r " " b" (by decide) (by decide)

/-- Counterexample for C6 as stated: the code strips the answer, so for
`"<think>reason</think> answer"` the answer is `"answer"`, not the plain
concatenation `"" ++ " answer"` the claim describes. -/
theorem split_thinking_strip_cex :
    splitThinking "<think>reason</think> answer"
      = (some "reason", "answer", true)
    ∧ (" answer" : String) ≠ "answer" := by
  constructor
  · decide
  · decide

/-! ### C10: session id sanitization -/

/-- C10: the filename stem for a session id keeps exactly the
alphanumeric, `-` and `_` characters (in order); if none survive the
stem is `"default"`; and any two raw ids that sanitize to the same
string address the same session file. -/
theorem session_id_sanitize :
    (∀ sid : String,
      sid.toList.filter (fun c => c.isAlphanum || c = '-' || c = '_') ≠ [] →
      sanitizeSessionId sid
        = String.mk (sid.toList.filter fun c => c.isAlphanum || c = '-' || c = '_'))
    ∧ (∀ sid : String,
      sid.toList.filter (fun c => c.isAlphanum || c = '-' || c = '_') = [] →
      sanitizeSessionId sid = "default" ∧ sessionFileName sid = "default.json")
    ∧ (∀ a b : String, sanitizeSessionId a = sanitizeSessionId b →
      sessionFileName a = sessionFileName b) := by
  refine ⟨?_, ?_, ?_⟩
  · intro sid h
    unfold sanitizeSessionId
    rw [if_neg]
    intro hc
    exact h ((string_mk_eq_empty_iff _).mp hc)
  · intro sid h
    have h1 : sanitizeSessionId sid = "default" := by
      unfold sanitizeSessionId
      rw [if_pos ((string_mk_eq_empty_iff _).mpr h)]
    refine ⟨h1, ?_⟩
    unfold sessionFileName
    rw [h1]
    decide
  · intro a b h
    unfold sessionFileName
    rw [h]

/-- Witness for C10: an id of only disallowed characters maps to
`default.json`, and two distinct raw ids collide on the same file. -/
theorem session_id_sanitize_witness :
    (sanitizeSessionId "!!!" = "default" ∧ sessionFileName "!!!" = "default.json")
    ∧ sessionFileName "a!b" = sessionFileName "a?b" :=
  ⟨session_id_sanitize.2.1 "!!!" (by decide),
   session_id_sanitize.2.2 "a!b" "a?b" (by decide)⟩

/-! ### Branch lemmas for the search phase -/

theorem searchPhase_not_searched (useSearch : Bool) (prompt : String)
    (now deadline : ℚ) (b f : Nat → Int → List SResult × Option String)
    (h : (useSearch && needsSearch prompt) = false) :
    searchPhase useSearch prompt now deadline b f = ⟨[], none, false, [], []⟩ := by
  simp [searchPhase, h]

theorem searchPhase_timedOut (useSearch : Bool) (prompt : String)
    (now deadline : ℚ) (b f : Nat → Int → List SResult × Option String)
    (h : (useSearch && needsSearch prompt) = true)
    (hle : deadline - now ≤ 0) :
    searchPhase useSearch prompt now deadline b f
      = ⟨[], some "Search time budget exceeded before starting.", true, [], []⟩ := by
  simp [searchPhase, h, hle]

theorem searchPhase_live (useSearch : Bool) (prompt : String)
    (now deadline : ℚ) (b f : Nat → Int → List SResult × Option String)
    (h : (useSearch && needsSearch prompt) = true)
    (hpos : 0 < deadline - now) :
    (searchPhase useSearch prompt now deadline b f).braveryCalls
      = [(10, min 30 (Int.floor (deadline - now)))]
    ∧ (searchPhase useSearch prompt now deadline b f).timedOut = false := by
  have hnle : ¬(deadline - now ≤ 0) := not_le.mpr hpos
  simp only [searchPhase, h, if_true]
  rw [if_neg hnle]
  rcases hb : b 10 (min 30 (Int.floor (deadline - now))) with ⟨res, err⟩
  by_cases h1 : pyTruthyStr err && res.isEmpty
  · rcases hf : f 10 (min 30 (Int.floor (deadline - now))) with ⟨fres, ferr⟩
    by_cases h2 : fres = []
    · by_cases h3 : pyTruthyStr ferr <;> simp [hb, h1, hf, h2, h3]
    · simp [hb, h1, hf, h2]
  · simp [hb, h1]

theorem searchPhase_clean (prompt : String) (now deadline : ℚ)
    (results : List SResult) (f : Nat → Int → List SResult × Option String)
    (h : needsSearch prompt = true) (hpos : 0 < deadline - now) :
    searchPhase true prompt now deadline (fun _ _ => (results, none)) f
      = ⟨results, none, false, [(10, min 30 (Int.floor (deadline - now)))], []⟩ := by
  have hnle : ¬(deadline - now ≤ 0) := not_le.mpr hpos
  simp only [searchPhase, h, Bool.and_true, Bool.true_and, if_true]
  rw [if_neg hnle]
  simp [pyTruthyStr]

/-! ### C2: search gating -/

/-- C2 (amended): `gather_context` invokes a search provider only if the
session's `use_search` flag is on and `_needs_search(prompt)` holds; when
in addition the deadline has not yet passed, the provider is invoked;
and with `use_search=False` the provider is never invoked and the result
is an empty search context with `timed_out=False` and `error=None`. -/
theorem gather_search_gate :
    ∀ (useSearch : Bool) (prompt : String) (now deadline : ℚ)
      (bravery fallback : Nat → Int → List SResult × Option String),
    let r := gatherContext useSearch prompt now deadline bravery fallback
    ((r.braveryCalls ≠ [] ∨ r.fallbackCalls ≠ []) →
      useSearch = true ∧ needsSearch prompt = true)
    ∧ (useSearch = true → needsSearch prompt = true → now < deadline →
      r.braveryCalls ≠ [])
    ∧ (useSearch = false →
      r.braveryCalls = [] ∧ r.fallbackCalls = [] ∧ r.searchContext = ""
      ∧ r.timedOut = false ∧ r.searchError = none) := by
  intro useSearch prompt now deadline bravery fallback
  refine ⟨?_, ?_, ?_⟩
  · intro hcalls
    by_contra hng
    have hgate : (useSearch && needsSearch prompt) = false := by
      by_cases hu : useSearch = true
      · by_cases hn : needsSearch prompt = true
        · exact absurd ⟨hu, hn⟩ hng
        · simp only [Bool.not_eq_true] at hn
          simp [hn]
      · simp only [Bool.not_eq_true] at hu
        simp [hu]
    have hsp := searchPhase_not_searched useSearch prompt now deadline
      bravery fallback hgate
    rcases hcalls with hc | hc <;> simp [gatherContext, hsp] at hc
  · intro hu hn hlt
    have hsp := searchPhase_live useSearch prompt now deadline bravery fallback
      (by simp [hu, hn]) (sub_pos.mpr hlt)
    simp [gatherContext, hsp.1]
  · intro hu
    have hsp := searchPhase_not_searched useSearch prompt now deadline
      bravery fallback (by simp [hu])
    refine ⟨?_, ?_, ?_, ?_, ?_⟩
    · simp [gatherContext, hsp]
    · simp [gatherContext, hsp]
    · simp only [gatherContext, hsp]
      decide
    · simp [gatherContext, hsp]
    · simp [gatherContext, hsp]

/-- Witness for C2: with the flag off the provider is not called; with
the flag on, a matching prompt and a live deadline it is. -/
theorem gather_search_gate_witness :
    (gatherContext false "today" 0 10 (fun _ _ => ([], none))
      (fun _ _ => ([], none))).braveryCalls = []
    ∧ (gatherContext true "today" 0 10 (fun _ _ => ([], none))
      (fun _ _ => ([], none))).braveryCalls ≠ [] := by
  constructor
  · exact ((gather_search_gate false "today" 0 10 (fun _ _ => ([], none))
      (fun _ _ => ([], none))).2.2 rfl).1
  · exact (gather_search_gate true "today" 0 10 (fun _ _ => ([], none))
      (fun _ _ => ([], none))).2.1 rfl (by decide) (by norm_num)

/-- Counterexample for C2 as stated: with `use_search=True` and the
prompt `"today"` (heuristic holds) but an already-expired deadline,
no provider is invoked, refuting the "if and only if". -/
theorem gather_search_gate_cex :
    needsSearch "today" = true
    ∧ (gatherContext true "today" 1 0 (fun _ _ => ([], none))
      (fun _ _ => ([], none))).braveryCalls = []
    ∧ (gatherContext true "today" 1 0 (fun _ _ => ([], none))
      (fun _ _ => ([], none))).fallbackCalls = [] := by
  have hn : needsSearch "today" = true := by decide
  have hsp := searchPhase_timedOut true "today" 1 0 (fun _ _ => ([], none))
    (fun _ _ => ([], none)) (by simp [hn]) (by norm_num)
  exact ⟨hn, by simp [gatherContext, hsp], by simp [gatherContext, hsp]⟩

/-! ### C3: deadline handling -/

/-- C3: when search would be attempted, an already-passed deadline
returns `timed_out=True` with its budget-exceeded error and no provider
call; otherwise the provider is called with timeout
`min(30, int(remaining))`. -/
theorem gather_deadline_clamp :
    ∀ (useSearch : Bool) (prompt : String) (now deadline : ℚ)
      (bravery fallback : Nat → Int → List SResult × Option String),
    useSearch = true → needsSearch prompt = true →
    let r := gatherContext useSearch prompt now deadline bravery fallback
    (deadline - now ≤ 0 →
      r.timedOut = true ∧ r.braveryCalls = [] ∧ r.fallbackCalls = []
      ∧ r.searchError = some "Search time budget exceeded before starting.")
    ∧ (0 < deadline - now →
      r.timedOut = false
      ∧ r.braveryCalls = [(10, min 30 (Int.floor (deadline - now)))]) := by
  intro useSearch prompt now deadline bravery fallback hu hn
  constructor
  · intro hle
    have hsp := searchPhase_timedOut useSearch prompt now deadline
      bravery fallback (by simp [hu, hn]) hle
    refine ⟨?_, ?_, ?_, ?_⟩ <;> simp [gatherContext, hsp]
  · intro hpos
    have hsp := searchPhase_live useSearch prompt now deadline bravery fallback
      (by simp [hu, hn]) hpos
    exact ⟨by simp [gatherContext, hsp.2], by simp [gatherContext, hsp.1]⟩

/-- Witness for C3: an expired deadline times out without a call; a live
deadline of 100 seconds clamps the provider timeout to 30. -/
theorem gather_deadline_clamp_witness :
    ((gatherContext true "today" 5 3 (fun _ _ => ([], none))
      (fun _ _ => ([], none))).timedOut = true)
    ∧ (gatherContext true "today" 0 100 (fun _ _ => ([], none))
      (fun _ _ => ([], none))).braveryCalls = [(10, 30)] := by
  constructor
  · exact ((gather_deadline_clamp true "today" 5 3 (fun _ _ => ([], none))
      (fun _ _ => ([], none)) rfl (by decide)).1 (by norm_num)).1
  · have h := (gather_deadline_clamp true "today" 0 100 (fun _ _ => ([], none))
      (fun _ _ => ([], none)) rfl (by decide)).2 (by norm_num)
    rw [h.2]
    norm_num

/-! ### C9: result rendering -/

/-- C9 (amended): each provider result is rendered, in provider order,
as the line `SEARCH RESULT {i+1}: {snippet or title}` with ` ({url})`
appended exactly when the stripped url is nonempty (fields stripped of
surrounding whitespace); the lines are newline-joined into the returned
search context, and the recorded evidence is that block stripped of
surrounding whitespace. -/
theorem search_render_spec :
    ∀ (prompt : String) (now deadline : ℚ) (results : List SResult)
      (fallback : Nat → Int → List SResult × Option String),
    needsSearch prompt = true → 0 < deadline - now →
    let r := gatherContext true prompt now deadline
      (fun _ _ => (results, none)) fallback
    r.searchContext = String.intercalate "\n" (results.enum.map fun p =>
      "SEARCH RESULT " ++ toString (p.1 + 1) ++ ": " ++
        (if pyStrip p.2.url = "" then
          (if pyStrip p.2.snippet ≠ "" then pyStrip p.2.snippet
           else pyStrip p.2.title)
         else
          (if pyStrip p.2.snippet ≠ "" then pyStrip p.2.snippet
           else pyStrip p.2.title) ++ " (" ++ pyStrip p.2.url ++ ")"))
    ∧ r.evidence = pyStrip r.searchContext := by
  intro prompt now deadline results fallback hn hpos
  have hsp := searchPhase_clean prompt now deadline results fallback hn hpos
  constructor
  · simp only [gatherContext, hsp]
    rfl
  · simp only [gatherContext, hsp]

/-- Witness for C9: three results rendered in order, one with an empty
snippet falling back to its title. -/
theorem search_render_spec_witness :
    (gatherContext true "today" 0 100
      (fun _ _ => ([⟨"T1", "u1", "s1"⟩, ⟨"T2", "u2", ""⟩], none))
      (fun _ _ => ([], none))).searchContext
      = "SEARCH RESULT 1: s1 (u1)\nSEARCH RESULT 2: T2 (u2)" := by
  have h := (search_render_spec "today" 0 100
    [⟨"T1", "u1", "s1"⟩, ⟨"T2", "u2", ""⟩]
    (fun _ _ => ([], none)) (by decide) (by norm_num)).1
  rw [h]
  decide

/-- Counterexample for C9 as stated: a result whose url is empty renders
without the parenthesized url suffix, not as `... ()`. -/
theorem search_render_cex :
    (gatherContext true "today" 0 100 (fun _ _ => ([⟨"t", "", ""⟩], none))
      (fun _ _ => ([], none))).searchContext = "SEARCH RESULT 1: t"
    ∧ ("SEARCH RESULT 1: t" : String) ≠ "SEARCH RESULT 1: t ()" := by
  have hsp := searchPhase_clean "today" 0 100 [⟨"t", "", ""⟩]
    (fun _ _ => ([], none)) (by decide) (by norm_num)
  constructor
  · simp only [gatherContext, hsp]
    decide
  · decide

/-! ### C8: history is append-only -/

/-- C8: every core operation on a session — the synchronous and
asynchronous send setup, the streaming worker's finalization, the async
worker, upload, and defaults application (the only state effect of a
history read) — either leaves `history` unchanged or appends `(role,
text)` entries at its end; none edits or deletes an entry. -/
theorem history_append_only :
    (∀ (s : Session) (prompt : String) (useSearch locationFailed : Bool)
      (loc : LocUpdate) (rid : String) (t : ℚ),
      (sendSetup s prompt useSearch locationFailed loc rid t).history
        = s.history ++ [("user", prompt)])
    ∧ (∀ (s : Session) (rid : String) (chunks : List String)
      (exn : Option String) (t : ℚ),
      (workerFinalize s rid chunks exn t).history
        = s.history ++
          (if String.join (chunks.filter (· ≠ "")) ≠ "" then
            [("assistant", String.join (chunks.filter (· ≠ "")))] else []))
    ∧ (∀ (s : Session) (rid : String) (outcome : Except String (List String))
      (t : ℚ),
      (workerAsyncRun s rid outcome t).history
        = s.history ++ (match outcome with
            | .ok chunks => [("assistant", String.join (chunks.filter (· ≠ "")))]
            | .error _ => []))
    ∧ (∀ (s : Session) (files : List (String × String)),
      (uploadOp s files).history = s.history)
    ∧ (∀ m : SState, (applyDefaultsJ m).lookup "history"
        = some ((m.lookup "history").getD (Json.arr []))) := by
  refine ⟨?_, ?_, ?_, ?_, ?_⟩
  · intro s prompt useSearch locationFailed loc rid t
    rcases loc <;> simp [sendSetup]
  · intro s rid chunks exn t
    simp only [workerFinalize]
    generalize String.join (chunks.filter (· ≠ "")) = acc
    rcases hsp : splitThinking acc with ⟨th, ans, has⟩
    rcases exn with _ | e <;> by_cases hacc : acc ≠ "" <;>
      simp [hsp, hacc]
  · intro s rid outcome t
    rcases outcome with e | chunks
    · simp [workerAsyncRun]
    · rcases hsp : splitThinking (String.join (chunks.filter (· ≠ "")))
        with ⟨th, ans, has⟩
      simp [workerAsyncRun, hsp]
  · intro s files
    induction files generalizing s with
    | nil => rfl
    | cons p rest ih => simp [uploadOp, ih]
  · intro m
    unfold applyDefaultsJ
    rw [lookup_setdefaultJ_ne _ _ _ _ (by decide)]
    rw [lookup_setdefaultJ_ne _ _ _ _ (by decide)]
    rw [lookup_setdefaultJ_ne _ _ _ _ (by decide)]
    rw [lookup_setdefaultJ_ne _ _ _ _ (by decide)]
    rw [lookup_setdefaultJ_ne _ _ _ _ (by decide)]
    rw [lookup_setdefaultJ_self]

/-! ### C4: endpoint fallback -/

/-- C4: with no host override and no forced model, if the local daemon
is unreachable at the entry probe and at every startup-grace re-probe
the resolver falls back to the reachable cloud endpoint, which demands
the bearer key and fails loudly (raises) when none is configured;
`require_key=True` always demands the key, and a non-cloud-shaped base
without `require_key` never does; a reachable local daemon yields the
local endpoint with no credential. -/
theorem endpoint_cloud_fallback :
    (∀ (localBase cloudBase apiKey : String) (up : Nat → Bool) (n : Nat),
      (∀ k, up k = false) →
      getOllamaEndpoint none none localBase cloudBase apiKey up n true
        = if apiKey = "" then
            .error "OLLAMA_API_KEY is required for the configured Ollama cloud endpoint."
          else .ok (generateUrl (normalizeBase cloudBase),
            [("Authorization", "Bearer " ++ apiKey)], CLOUD_MODEL))
    ∧ (∀ (localBase cloudBase apiKey : String) (up : Nat → Bool) (n : Nat),
      up 0 = true →
      getOllamaEndpoint none none localBase cloudBase apiKey up n true
        = .ok (generateUrl (normalizeBase localBase), [], LOCAL_MODEL))
    ∧ (∀ apiKey base : String, authHeaders apiKey base true
        = if apiKey = "" then
            .error "OLLAMA_API_KEY is required for the configured Ollama cloud endpoint."
          else .ok [("Authorization", "Bearer " ++ apiKey)])
    ∧ (∀ apiKey base : String, strContains "ollama.com" base = false →
        base.startsWith "https://api.ollama." = false →
        authHeaders apiKey base false = .ok []) := by
  refine ⟨?_, ?_, ?_, ?_⟩
  · intro localBase cloudBase apiKey up n hall
    have h0 : up 0 = false := hall 0
    have hfind : ((List.range n).find? fun k => up (k + 1)) = none :=
      List.find?_eq_none.mpr fun x _ => by simp [hall]
    by_cases hk : apiKey = "" <;>
      simp [getOllamaEndpoint, resolveDefault, h0, hfind, authHeaders, hk]
  · intro localBase cloudBase apiKey up n h0
    simp [getOllamaEndpoint, resolveDefault, h0]
  · intro apiKey base
    by_cases hk : apiKey = "" <;> simp [authHeaders, hk]
  · intro apiKey base h1 h2
    simp [authHeaders, h1, h2]

/-- Witness for C4: with every probe failing and no key, resolution
raises; with a key it returns the cloud generate URL; with the local
daemon up it returns the local endpoint with empty headers. -/
theorem endpoint_cloud_fallback_witness :
    getOllamaEndpoint none none "http://localhost:11434" "https://ollama.com" ""
      (fun _ => false) 8 true
      = .error "OLLAMA_API_KEY is required for the configured Ollama cloud endpoint."
    ∧ getOllamaEndpoint none none "http://localhost:11434" "https://ollama.com" "k"
      (fun _ => false) 8 true
      = .ok (generateUrl (normalizeBase "https://ollama.com"),
          [("Authorization", "Bearer k")], CLOUD_MODEL)
    ∧ getOllamaEndpoint none none "http://localhost:11434" "https://ollama.com" ""
      (fun _ => true) 8 true
      = .ok (generateUrl (normalizeBase "http://localhost:11434"), [], LOCAL_MODEL) := by
  refine ⟨?_, ?_, ?_⟩
  · rw [endpoint_cloud_fallback.1 "http://localhost:11434" "https://ollama.com" ""
      (fun _ => false) 8 (fun _ => rfl)]
    rw [if_pos rfl]
  · rw [endpoint_cloud_fallback.1 "http://localhost:11434" "https://ollama.com" "k"
      (fun _ => false) 8 (fun _ => rfl)]
    rw [if_neg (by decide)]
    rfl
  · exact endpoint_cloud_fallback.2.1 "http://localhost:11434" "https://ollama.com"
      "" (fun _ => true) 8 rfl

theorem intercalate_pair (sep a b : String) :
    String.intercalate sep [a, b] = a ++ sep ++ b := rfl

/-! ### C5: search provider fallback chain -/

/-- C5: the search operations return error values instead of raising
(every branch of `perform_search` and `bravery_search` yields a value);
an empty query short-circuits to an empty result with the explicit
"No query provided" error; with the primary (Google) credentials
configured, Google is tried first and a nonempty Google result is
returned without trying DuckDuckGo; on a Google exception or empty
result set the error is recorded and DuckDuckGo is tried; when both
fail the result is an empty list with the combined error string. -/
theorem search_error_values :
    (∀ (cseId gApiKey : Option String) (gS dS : Except String (List SResult))
      (q : String) (n : Nat),
      (performSearch cseId gApiKey gS dS q n).isOk = true)
    ∧ (∀ (key : Option String) (fetch : Except String (List BraveItem))
      (q : String) (n : Nat), (braverySearch key fetch q n).isOk = true)
    ∧ (∀ (key : Option String) (fetch : Except String (List BraveItem)) (n : Nat),
      braverySearch key fetch "" n = .ok ([], some "No query provided"))
    ∧ (∀ (cseId gApiKey : Option String) (dS : Except String (List SResult))
      (q : String) (n : Nat) (res : List SResult),
      q ≠ "" → pyTruthyStr cseId = true → pyTruthyStr gApiKey = true →
      res ≠ [] →
      performSearch cseId gApiKey (.ok res) dS q n
        = .ok ⟨res.take n, none, true, false⟩)
    ∧ (∀ (cseId gApiKey : Option String) (q : String) (n : Nat) (g d : String),
      q ≠ "" → pyTruthyStr cseId = true → pyTruthyStr gApiKey = true →
      performSearch cseId gApiKey (.error g) (.error d) q n
        = .ok ⟨[], some ("Google search failed: " ++ g ++ "; " ++ d), true, true⟩)
    ∧ (∀ (cseId gApiKey : Option String) (q : String) (n : Nat) (d : String),
      q ≠ "" → pyTruthyStr cseId = true → pyTruthyStr gApiKey = true →
      performSearch cseId gApiKey (.ok []) (.error d) q n
        = .ok ⟨[], some ("Google search returned no results." ++ "; " ++ d),
            true, true⟩) := by
  refine ⟨?_, ?_, ?_, ?_, ?_, ?_⟩
  · intro cseId gApiKey gS dS q n
    unfold performSearch
    repeat' (first | rfl | split)
    all_goals dsimp only
    all_goals repeat' (first | rfl | split)
  · intro key fetch q n
    unfold braverySearch
    repeat' (first | rfl | split)
    all_goals dsimp only
    all_goals repeat' (first | rfl | split)
  · intro key fetch n
    rfl
  · intro cseId gApiKey dS q n res hq hc hg hres
    simp [performSearch, hq, hc, hg, hres]
  · intro cseId gApiKey q n g d hq hc hg
    simp [performSearch, hq, hc, hg, intercalate_pair]
  · intro cseId gApiKey q n d hq hc hg
    simp [performSearch, hq, hc, hg, intercalate_pair]

/-- Witness for C5: concrete empty query, and both providers failing
with the combined error string. -/
theorem search_error_values_witness :
    braverySearch none (.ok []) "" 5 = .ok ([], some "No query provided")
    ∧ performSearch (some "cid") (some "key") (.error "boom") (.error "dead") "q" 3
      = .ok ⟨[], some ("Google search failed: " ++ "boom" ++ "; " ++ "dead"),
          true, true⟩ :=
  ⟨search_error_values.2.2.1 none (.ok []) 5,
   search_error_values.2.2.2.2.1 (some "cid") (some "key") "q" 3 "boom" "dead"
     (by decide) (by decide) (by decide)⟩

/-! ### C7: round-trip persistence -/

theorem setdefaultJ_isSome_self (m : SState) (k : String) (v : Json) :
    ((setdefaultJ m k v).lookup k).isSome := by
  rw [lookup_setdefaultJ_self]
  rfl

theorem setdefaultJ_isSome_mono (m : SState) (k k2 : String) (v : Json)
    (h : (m.lookup k).isSome) : ((setdefaultJ m k2 v).lookup k).isSome := by
  by_cases he : k = k2
  · subst he
    exact setdefaultJ_isSome_self m k v
  · rw [lookup_setdefaultJ_ne m k2 k v he]
    exact h

theorem applyDefaultsJ_all_present (m : SState)
    (h1 : (m.lookup "history").isSome)
    (h2 : (m.lookup "use_search").isSome)
    (h3 : (m.lookup "use_url_fetch").isSome)
    (h4 : (m.lookup "auto_fetch_top_result").isSome)
    (h5 : (m.lookup "file_context").isSome)
    (h6 : (m.lookup "user_location").isSome) :
    applyDefaultsJ m = m := by
  unfold applyDefaultsJ
  rw [setdefaultJ_noop _ _ _ h1, setdefaultJ_noop _ _ _ h2,
      setdefaultJ_noop _ _ _ h3, setdefaultJ_noop _ _ _ h4,
      setdefaultJ_noop _ _ _ h5, setdefaultJ_noop _ _ _ h6]

theorem applyDefaultsJ_idem (m : SState) :
    applyDefaultsJ (applyDefaultsJ m) = applyDefaultsJ m := by
  apply applyDefaultsJ_all_present
  · unfold applyDefaultsJ
    exact setdefaultJ_isSome_mono _ _ _ _ (setdefaultJ_isSome_mono _ _ _ _
      (setdefaultJ_isSome_mono _ _ _ _ (setdefaultJ_isSome_mono _ _ _ _
      (setdefaultJ_isSome_mono _ _ _ _ (setdefaultJ_isSome_self _ _ _)))))
  · unfold applyDefaultsJ
    exact setdefaultJ_isSome_mono _ _ _ _ (setdefaultJ_isSome_mono _ _ _ _
      (setdefaultJ_isSome_mono _ _ _ _ (setdefaultJ_isSome_mono _ _ _ _
      (setdefaultJ_isSome_self _ _ _))))
  · unfold applyDefaultsJ
    exact setdefaultJ_isSome_mono _ _ _ _ (setdefaultJ_isSome_mono _ _ _ _
      (setdefaultJ_isSome_mono _ _ _ _ (setdefaultJ_isSome_self _ _ _)))
  · unfold applyDefaultsJ
    exact setdefaultJ_isSome_mono _ _ _ _ (setdefaultJ_isSome_mono _ _ _ _
      (setdefaultJ_isSome_self _ _ _))
  · unfold applyDefaultsJ
    exact setdefaultJ_isSome_mono _ _ _ _ (setdefaultJ_isSome_self _ _ _)
  · unfold applyDefaultsJ
    exact setdefaultJ_isSome_self _ _ _

/-- C7: `get_state(id)` followed by `save_session(id, state)` and a
fresh `get_state(id)` that re-loads the state from the on-disk JSON file
(empty in-memory cache) yields exactly the state that was saved. -/
theorem session_roundtrip :
    ∀ (sid : String) (st : Store) (s1 : SState) (st1 : Store),
      getState sid st = .ok (s1, st1) →
      ∃ st2 : Store,
        getState sid { saveSession sid s1 st1 with mem := [] } = .ok (s1, st2) := by
  intro sid st s1 st1 h
  by_cases hsid : sid = ""
  · rw [hsid] at h
    simp [getState] at h
  · simp only [getState, if_neg hsid] at h
    rw [Except.ok.injEq, Prod.mk.injEq] at h
    obtain ⟨hs1, hst⟩ := h
    have hidem : applyDefaultsJ s1 = s1 := by
      rw [← hs1, applyDefaultsJ_idem]
    have hload : loadSession sid { saveSession sid s1 st1 with mem := [] } = s1 := by
      unfold loadSession saveSession
      rw [lookup_updateAssoc_self]
    have hmain : getState sid { saveSession sid s1 st1 with mem := [] }
        = .ok (s1, saveSession sid s1
            { saveSession sid s1 st1 with mem := updateAssoc [] sid s1 }) := by
      simp only [getState, if_neg hsid]
      simp only [hload, hidem, List.lookup_nil]
    exact ⟨_, hmain⟩

/-- Witness for C7: a fresh session `"abc"` saved and re-loaded from
disk round-trips to the same defaulted state. -/
theorem session_roundtrip_witness :
    ∃ st2 : Store,
      getState "abc"
        { saveSession "abc" (applyDefaultsJ [])
            ⟨[("abc", applyDefaultsJ [])],
             [("abc.json", Json.obj (applyDefaultsJ []))]⟩ with mem := [] }
        = .ok (applyDefaultsJ [], st2) :=
  session_roundtrip "abc" ⟨[], []⟩ (applyDefaultsJ [])
    ⟨[("abc", applyDefaultsJ [])], [("abc.json", Json.obj (applyDefaultsJ []))]⟩
    rfl

/-! ### C1: the /api/send stream protocol -/

theorem consumeQueue_tokens (wr : String × String × Option String)
    (joined : String) (ts : List String) (q : List QItem) :
    consumeQueue wr joined (ts.map QItem.token ++ q)
      = ts.map SEvent.token ++ consumeQueue wr joined q := by
  induction ts with
  | nil => rfl
  | cons a t ih => simp [consumeQueue, ih]

theorem filter_isTerminal_tokens (ts : List String) :
    (ts.map SEvent.token).filter isTerminal = [] := by
  induction ts with
  | nil => rfl
  | cons a t ih => simp [isTerminal, ih]

theorem consumeQueue_workerQueue (chunks : List String) (exn : Option String)
    (genStarted : Bool) :
    consumeQueue (workerResult chunks) (String.join (chunks.filter (· ≠ "")))
      (workerQueue chunks exn genStarted)
      = ((chunks.filter (· ≠ "")).map SEvent.token) ++ [terminalOf chunks exn] := by
  cases genStarted <;> cases exn <;>
    simp [workerQueue, consumeQueue, consumeQueue_tokens, terminalOf]

theorem isTerminal_terminalOf (chunks : List String) (exn : Option String) :
    isTerminal (terminalOf chunks exn) = true := by
  cases exn <;> simp [terminalOf, isTerminal]

theorem sendEventStream_shape (rid : String) (searchError : Option String)
    (timedOut useSearch genStarted : Bool) (chunks : List String)
    (exn : Option String) :
    sendEventStream rid searchError timedOut useSearch genStarted chunks exn
      = (SEvent.job rid
          :: (if pyTruthyStr searchError then
              [SEvent.notice ("Search unavailable: " ++ searchError.getD "")] else [])
          ++ (if timedOut then
              [SEvent.notice ("Search/fetch capped at " ++
                toString (SEARCH_TIME_BUDGET / 60) ++ " minute(s).")] else [])
          ++ (chunks.filter (· ≠ "")).map SEvent.token)
        ++ [terminalOf chunks exn] := by
  unfold sendEventStream
  rw [show ([QItem.status "Preparing request…",
      QItem.status (if useSearch then "Searching for data…"
        else "Skipping search; compiling context…")]
      ++ workerQueue chunks exn genStarted : List QItem)
      = QItem.status "Preparing request…"
        :: QItem.status (if useSearch then "Searching for data…"
          else "Skipping search; compiling context…")
        :: workerQueue chunks exn genStarted from rfl]
  rw [show ∀ wr j q, consumeQueue wr j
      (QItem.status "Preparing request…"
        :: QItem.status (if useSearch then "Searching for data…"
          else "Skipping search; compiling context…") :: q)
      = consumeQueue wr j q from fun wr j q => rfl]
  rw [consumeQueue_workerQueue]
  simp [List.append_assoc]

/-- C1: for every `/api/send` request outcome — the stream completing,
returning no fragments, or raising mid-stream — the client-facing event
stream ends with exactly one terminal event (the `final` event carrying
the complete accumulated raw text when no exception occurred, else the
`error` converted from the caught exception); no `final` follows an
`error`; and the worker's queue always ends with the `end` sentinel. -/
theorem send_stream_single_terminal :
    ∀ (rid : String) (searchError : Option String)
      (timedOut useSearch genStarted : Bool) (chunks : List String)
      (exn : Option String),
    (sendEventStream rid searchError timedOut useSearch genStarted
        chunks exn).getLast? = some (terminalOf chunks exn)
    ∧ (sendEventStream rid searchError timedOut useSearch genStarted
        chunks exn).filter isTerminal = [terminalOf chunks exn]
    ∧ (∀ x ∈ sendEventStream rid searchError timedOut useSearch genStarted
        chunks exn, isTerminal x = true → x = terminalOf chunks exn)
    ∧ (workerQueue chunks exn genStarted).getLast? = some QItem.stop
    ∧ (∀ e, exn = some e → terminalOf chunks exn = SEvent.error e)
    ∧ (exn = none → ∃ a th, terminalOf chunks exn
        = SEvent.final (String.join (chunks.filter (· ≠ ""))) a th) := by
  intro rid searchError timedOut useSearch genStarted chunks exn
  have hshape := sendEventStream_shape rid searchError timedOut useSearch
    genStarted chunks exn
  refine ⟨?_, ?_, ?_, ?_, ?_, ?_⟩
  · rw [hshape]
    exact List.getLast?_concat _
  · rw [hshape]
    simp only [List.filter_append]
    rw [show (List.filter isTerminal [terminalOf chunks exn])
        = [terminalOf chunks exn] by
      simp [List.filter, isTerminal_terminalOf]]
    by_cases h1 : pyTruthyStr searchError <;> by_cases h2 : timedOut <;>
      simp [h1, h2, isTerminal, filter_isTerminal_tokens, List.filter]
  · intro x hx ht
    have hmem : x ∈ (sendEventStream rid searchError timedOut useSearch
        genStarted chunks exn).filter isTerminal :=
      List.mem_filter.mpr ⟨hx, ht⟩
    rw [hshape] at hmem
    rw [show ((SEvent.job rid
        :: (if pyTruthyStr searchError then
            [SEvent.notice ("Search unavailable: " ++ searchError.getD "")] else [])
        ++ (if timedOut then
            [SEvent.notice ("Search/fetch capped at " ++
              toString (SEARCH_TIME_BUDGET / 60) ++ " minute(s).")] else [])
        ++ (chunks.filter (· ≠ "")).map SEvent.token)
        ++ [terminalOf chunks exn]).filter isTerminal
        = [terminalOf chunks exn] from ?_] at hmem
    · simpa using hmem
    · simp only [List.filter_append]
      rw [show (List.filter isTerminal [terminalOf chunks exn])
          = [terminalOf chunks exn] by
        simp [List.filter, isTerminal_terminalOf]]
      by_cases h1 : pyTruthyStr searchError <;> by_cases h2 : timedOut <;>
        simp [h1, h2, isTerminal, filter_isTerminal_tokens, List.filter]
  · cases exn with
    | none =>
      rw [show workerQueue chunks none genStarted
          = ((if genStarted then [QItem.status "Generating response…"] else [])
            ++ (chunks.filter (· ≠ "")).map QItem.token
            ++ [QItem.status "Finalizing output…"]) ++ [QItem.stop] from by
        simp [workerQueue, List.append_assoc]]
      exact List.getLast?_concat _
    | some e =>
      rw [show workerQueue chunks (some e) genStarted
          = ((if genStarted then [QItem.status "Generating response…"] else [])
            ++ (chunks.filter (· ≠ "")).map QItem.token
            ++ [QItem.error e] ++ [QItem.status "Finalizing output…"])
            ++ [QItem.stop] from by
        simp [workerQueue, List.append_assoc]]
      exact List.getLast?_concat _
  · intro e he
    rw [he]
    rfl
  · intro he
    subst he
    unfold terminalOf workerResult
    generalize String.join (chunks.filter (· ≠ "")) = acc
    by_cases hj : acc = ""
    · refine ⟨acc, none, ?_⟩
      dsimp only
      rw [if_neg (show ¬(acc ≠ "") from by simp [hj])]
      rfl
    · rcases hsp : splitThinking acc with ⟨th2, ans2, has2⟩
      refine ⟨if (if has2 = true then ans2 else acc) ≠ ""
          then (if has2 = true then ans2 else acc) else acc, th2, ?_⟩
      dsimp only
      rw [if_pos hj, hsp]
      dsimp only
      rw [if_pos hj]

/-- Witness for C1: a concrete two-fragment stream ends in its `final`
event, and a concrete raising stream ends in its `error` event. -/
theorem send_stream_single_terminal_witness :
    (sendEventStream "r1" none false false true ["a", "b"] none).getLast?
      = some (terminalOf ["a", "b"] none)
    ∧ terminalOf ["x"] (some "boom") = SEvent.error "boom" :=
  ⟨(send_stream_single_terminal "r1" none false false true ["a", "b"] none).1,
   (send_stream_single_terminal "r1" none false false true ["x"]
     (some "boom")).2.2.2.2.1 "boom" rfl⟩

/-- Witness for C8: a concrete send setup appends exactly the user turn. -/
theorem history_append_only_witness :
    (sendSetup ⟨[("user", "hi")], true, true, "", none, [], []⟩
      "hello" true false LocUpdate.keep "r1" 0).history
      = [("user", "hi")] ++ [("user", "hello")] :=
  history_append_only.1 ⟨[("user", "hi")], true, true, "", none, [], []⟩
    "hello" true false LocUpdate.keep "r1" 0

end LocalAI
